import Mathlib

set_option maxRecDepth 2000

/- Verification development for the geminicord Discord bot (bot.py).

   The file shallowly embeds the parts of bot.py that the verified
   properties talk about: the permission gate at the top of on_message,
   the conversation walk (message-chain reconstruction), the streaming
   response driver, and build_system_prompt.  Each definition mirrors a
   region of the source; the line numbers in comments refer to bot.py. -/

namespace Geminicord

/-! ## String helpers

Counterparts of the Python string operations used by the source, defined
by structural recursion over the character list so that concrete runs
reduce inside the kernel.  Each is extensionally the same operation as the
corresponding Python method on strings of unicode code points. -/

/-- Python s.startswith(p). -/
def pyStartsWith (s p : String) : Bool := p.data.isPrefixOf s.data

/-- Python s[n:]. -/
def pyDrop (s : String) (n : Nat) : String := String.mk (s.data.drop n)

/-- Python s[:n]. -/
def pyTake (s : String) (n : Nat) : String := String.mk (s.data.take n)

/-- Python s.lstrip(). -/
def pyTrimLeft (s : String) : String := String.mk (s.data.dropWhile Char.isWhitespace)

/-- Python s.endswith(p). -/
def pyEndsWith (s p : String) : Bool := p.data.isSuffixOf s.data

/-- Python s.lower() (ASCII case folding). -/
def pyToLower (s : String) : String := String.mk (s.data.map Char.toLower)

/-! ## Permission gate (bot.py lines 450-478, inside on_message) -/

/-- One permission scope of the config: permissions.X.allowed_ids and
    permissions.X.blocked_ids (bot.py line 465-467). -/
structure PermScope where
  allowed_ids : List Nat
  blocked_ids : List Nat
deriving DecidableEq

/-- The permissions block of config.yaml, as read at line 462-463. -/
structure Permissions where
  admin_ids : List Nat
  users : PermScope
  roles : PermScope
  channels : PermScope
deriving DecidableEq

/-- The parts of the bot config that the gate consults. -/
structure BotConfig where
  allow_dms : Bool
  permissions : Permissions
deriving DecidableEq

/-- An incoming message event, reduced to the fields the gate reads:
    author id, DM flag, the author role ids (line 456) and the channel id
    set (channel, parent channel, category; line 457). -/
structure MsgEvent where
  author_id : Nat
  is_dm : Bool
  role_ids : List Nat
  channel_ids : List Nat
deriving DecidableEq

/-- bot.py line 463: new_msg.author.id in permissions["users"]["admin_ids"]. -/
def user_is_admin (cfg : BotConfig) (e : MsgEvent) : Bool :=
  cfg.permissions.admin_ids.contains e.author_id

/-- bot.py line 469:
    allow_all_users = not allowed_user_ids if is_dm
                      else not allowed_user_ids and not allowed_role_ids. -/
def allow_all_users (cfg : BotConfig) (e : MsgEvent) : Bool :=
  if e.is_dm then cfg.permissions.users.allowed_ids.isEmpty
  else cfg.permissions.users.allowed_ids.isEmpty
       && cfg.permissions.roles.allowed_ids.isEmpty

/-- bot.py line 470. -/
def is_good_user (cfg : BotConfig) (e : MsgEvent) : Bool :=
  user_is_admin cfg e || allow_all_users cfg e
    || cfg.permissions.users.allowed_ids.contains e.author_id
    || e.role_ids.any cfg.permissions.roles.allowed_ids.contains

/-- bot.py line 471. -/
def is_bad_user (cfg : BotConfig) (e : MsgEvent) : Bool :=
  !is_good_user cfg e
    || cfg.permissions.users.blocked_ids.contains e.author_id
    || e.role_ids.any cfg.permissions.roles.blocked_ids.contains

/-- bot.py line 473. -/
def allow_all_channels (cfg : BotConfig) : Bool :=
  cfg.permissions.channels.allowed_ids.isEmpty

/-- bot.py line 474.  Python conditional-expression precedence makes this
    (user_is_admin or allow_dms) if is_dm
    else (allow_all_channels or any(id in allowed_channel_ids ...)). -/
def is_good_channel (cfg : BotConfig) (e : MsgEvent) : Bool :=
  if e.is_dm then user_is_admin cfg e || cfg.allow_dms
  else allow_all_channels cfg
       || e.channel_ids.any cfg.permissions.channels.allowed_ids.contains

/-- bot.py line 475. -/
def is_bad_channel (cfg : BotConfig) (e : MsgEvent) : Bool :=
  !is_good_channel cfg e
    || e.channel_ids.any cfg.permissions.channels.blocked_ids.contains

/-- bot.py line 477: the event is processed unless is_bad_user or
    is_bad_channel. -/
def permission_allows (cfg : BotConfig) (e : MsgEvent) : Bool :=
  !is_bad_user cfg e && !is_bad_channel cfg e

/-- The user allow-check as the spec describes it for non-admins. -/
def user_allow_check (cfg : BotConfig) (e : MsgEvent) : Bool :=
  allow_all_users cfg e
    || cfg.permissions.users.allowed_ids.contains e.author_id
    || e.role_ids.any cfg.permissions.roles.allowed_ids.contains

/-- The channel allow-check as the spec describes it for non-admins
    (in DM contexts it is the allow-DMs flag). -/
def channel_allow_check (cfg : BotConfig) (e : MsgEvent) : Bool :=
  if e.is_dm then cfg.allow_dms
  else allow_all_channels cfg
       || e.channel_ids.any cfg.permissions.channels.allowed_ids.contains

/-- Membership in any explicit block-list (user, role or channel scope). -/
def any_block_listed (cfg : BotConfig) (e : MsgEvent) : Bool :=
  cfg.permissions.users.blocked_ids.contains e.author_id
    || e.role_ids.any cfg.permissions.roles.blocked_ids.contains
    || e.channel_ids.any cfg.permissions.channels.blocked_ids.contains

/-- Decision formula of the amended claim C1: an admin bypasses the user
    allow-check everywhere but bypasses the channel allow-check only in
    DMs; nobody bypasses the block-lists; non-admins need both
    allow-checks.  Written from the amended claim wording, to be compared
    with permission_allows. -/
def c1_amended_decision (cfg : BotConfig) (e : MsgEvent) : Bool :=
  (if user_is_admin cfg e then
     (if e.is_dm then true else channel_allow_check cfg e)
   else user_allow_check cfg e && channel_allow_check cfg e)
  && !any_block_listed cfg e

/-- Concrete permission config for the C1 counterexample: user 1 is an
    admin, the channel allow-list is the single channel 100, every
    block-list is empty, DMs allowed. -/
def cfgC1 : BotConfig :=
  { allow_dms := true
    permissions :=
      { admin_ids := [1]
        users := { allowed_ids := [], blocked_ids := [] }
        roles := { allowed_ids := [], blocked_ids := [] }
        channels := { allowed_ids := [100], blocked_ids := [] } } }

/-- C1 counterexample event: the admin (user 1) writes in guild channel
    200, which is not in the channel allow-list. -/
def evC1 : MsgEvent :=
  { author_id := 1, is_dm := false, role_ids := [], channel_ids := [200] }

/-- Claim C1 states that an administrator bypasses the channel allow-check
    in guild channels too.  Counterexample: user 1 is an admin, appears in
    no block-list, yet the gate rejects the event because the guild channel
    is outside the channel allow-list (bot.py line 474 only consults
    user_is_admin in the DM branch). -/
theorem c1_counterexample :
    user_is_admin cfgC1 evC1 = true
    ∧ any_block_listed cfgC1 evC1 = false
    ∧ permission_allows cfgC1 evC1 = false := by
  decide

/-- Claim C1 (corrected): the gate decision equals the amended formula: an
    admin bypasses the user allow-check always, bypasses the channel
    allow-check only in direct messages, and never bypasses a block-list;
    a non-admin needs the user allow-check, the channel allow-check, and
    absence from every block-list. -/
theorem c1_amended_thm (cfg : BotConfig) (e : MsgEvent) :
    permission_allows cfg e = c1_amended_decision cfg e := by
  simp only [permission_allows, c1_amended_decision, is_bad_user, is_bad_channel,
    is_good_user, is_good_channel, user_allow_check, channel_allow_check,
    any_block_listed, allow_all_users, allow_all_channels, user_is_admin]
  generalize e.is_dm = dm
  generalize cfg.permissions.admin_ids.contains e.author_id = adm
  generalize cfg.permissions.users.allowed_ids.isEmpty = ue
  generalize cfg.permissions.roles.allowed_ids.isEmpty = re
  generalize cfg.permissions.channels.allowed_ids.isEmpty = ce
  generalize cfg.permissions.users.allowed_ids.contains e.author_id = ua
  generalize e.role_ids.any cfg.permissions.roles.allowed_ids.contains = ra
  generalize e.channel_ids.any cfg.permissions.channels.allowed_ids.contains = ca
  generalize cfg.permissions.users.blocked_ids.contains e.author_id = ub
  generalize e.role_ids.any cfg.permissions.roles.blocked_ids.contains = rb
  generalize e.channel_ids.any cfg.permissions.channels.blocked_ids.contains = cb
  generalize cfg.allow_dms = dms
  revert dm adm ue re ce ua ra ca ub rb cb dms
  decide

/-- Concrete config for the C2 counterexample: empty user allow-list but a
    non-empty role allow-list (role 5); nothing else set. -/
def cfgC2 : BotConfig :=
  { allow_dms := true
    permissions :=
      { admin_ids := []
        users := { allowed_ids := [], blocked_ids := [] }
        roles := { allowed_ids := [5], blocked_ids := [] }
        channels := { allowed_ids := [], blocked_ids := [] } } }

/-- C2 counterexample event: non-admin guild author 7 with no roles. -/
def evC2 : MsgEvent :=
  { author_id := 7, is_dm := false, role_ids := [], channel_ids := [300] }

/-- Claim C2 states that in guild events an empty user allow-set lets every
    author pass the user allow-check regardless of the role allow-set.
    Counterexample: with an empty user allow-set but a non-empty role
    allow-set, a roleless non-admin author fails the user allow-check,
    because bot.py line 469 requires both allow-sets to be empty in guilds. -/
theorem c2_counterexample :
    cfgC2.permissions.users.allowed_ids = []
    ∧ evC2.is_dm = false
    ∧ user_is_admin cfgC2 evC2 = false
    ∧ is_good_user cfgC2 evC2 = false := by
  decide

/-- Claim C2 (corrected): empty allow-set means allow-all for each scope,
    except that in guild contexts the user scope allows all only when both
    the user and the role allow-sets are empty, and in DM contexts the
    channel scope is gated by the allow-DMs flag or admin status. -/
theorem c2_amended_thm (cfg : BotConfig) (e : MsgEvent) :
    (e.is_dm = true → cfg.permissions.users.allowed_ids = [] →
        is_good_user cfg e = true)
    ∧ (e.is_dm = false → cfg.permissions.users.allowed_ids = [] →
        cfg.permissions.roles.allowed_ids = [] → is_good_user cfg e = true)
    ∧ (e.is_dm = false → cfg.permissions.channels.allowed_ids = [] →
        is_good_channel cfg e = true)
    ∧ (e.is_dm = true →
        is_good_channel cfg e = (user_is_admin cfg e || cfg.allow_dms)) := by
  refine ⟨?_, ?_, ?_, ?_⟩
  · intro hdm hu
    simp [is_good_user, allow_all_users, hdm, hu]
  · intro hdm hu hr
    simp [is_good_user, allow_all_users, hdm, hu, hr]
  · intro hdm hc
    simp [is_good_channel, allow_all_channels, hdm, hc]
  · intro hdm
    simp [is_good_channel, hdm]

/-- Witness for c2_amended_thm at a concrete config and event. -/
theorem c2_amended_witness :
    is_good_user cfgC1 evC1 = true ∧ is_good_channel cfgC2 evC2 = true := by
  refine ⟨?_, ?_⟩
  · exact (c2_amended_thm cfgC1 evC1).2.1 (by decide) (by decide) (by decide)
  · exact (c2_amended_thm cfgC2 evC2).2.2.1 (by decide) (by decide)

/-! ## Conversation walk (bot.py lines 495-589, inside on_message)

The walk repeatedly populates a MsgNode from the current Discord message
and follows its resolved parent.  Node population is deterministic in the
message and the network oracles, so revisiting a cached node observes the
same data that recomputing it yields; the embedding therefore recomputes
nodes instead of modelling the msg_nodes cache.  The network is abstracted
by two oracle functions (image download success and URL regex matches);
the rest of the population logic is transcribed from the source. -/

/-- A Discord attachment: content type header and URL. -/
structure Attachment where
  content_type : Option String
  url : String
deriving DecidableEq

/-- bot.py line 509: att.content_type and att.content_type.startswith("image").
    A missing or empty content type is falsy in Python. -/
def attachment_is_image (a : Attachment) : Bool :=
  match a.content_type with
  | some ct => pyStartsWith ct ("image")
  | none => false

/-- The fields of a Discord message that the walk reads.  parent_id is the
    id of the message that the parent-resolution code (lines 537-554)
    produces, none when resolution yields no parent; fetch_fails models the
    discord.NotFound / discord.HTTPException path (line 556). -/
structure Msg where
  id : Nat
  content : String
  embeds : List (Option String × Option String)
  attachments : List Attachment
  author_is_self : Bool
  author_id : Nat
  display_name : String
  parent_id : Option Nat
  fetch_fails : Bool
deriving DecidableEq

/-- The network and platform oracles of one walk. -/
structure WalkEnv where
  /-- The bot user mention string (discord_bot.user.mention). -/
  bot_mention : String
  /-- download_and_encode_image (line 165): some encoded part or failure. -/
  resolve_image : String → Option String
  /-- re.findall of the URL pattern over a text (line 229-230). -/
  find_urls : String → List String
  /-- Lookup of a message by id, modelling the Message objects that
      parent resolution hands to the next iteration. -/
  store : Nat → Option Msg

/-- bot.py line 506: content.removeprefix(bot.user.mention).lstrip(). -/
def cleaned_content (mention content : String) : String :=
  pyTrimLeft (if pyStartsWith content mention then pyDrop content mention.length else content)

/-- bot.py line 513: newline-join of filter(None, (embed.title, embed.description)). -/
def embed_text (e : Option String × Option String) : String :=
  String.intercalate "\n" (([e.1, e.2].filterMap id).filter (fun s => !s.isEmpty))

/-- bot.py lines 511-514: node text = cleaned content (when non-empty)
    joined with the embed texts (one entry per embed, even when empty). -/
def node_text (env : WalkEnv) (m : Msg) : String :=
  let c := cleaned_content env.bot_mention m.content
  String.intercalate "\n" ((if c.isEmpty then [] else [c]) ++ m.embeds.map embed_text)

/-- bot.py line 232-235: accepted image file extensions. -/
def image_extensions : List String :=
  [".png", ".jpg", ".jpeg", ".gif", ".webp", ".bmp"]

/-- extract_image_urls (bot.py lines 227-235): URLs found in the text whose
    lowercased form ends in an image extension, capped at max_urls. -/
def extract_image_urls (env : WalkEnv) (text : String) (max_urls : Nat) : List String :=
  ((env.find_urls text).filter
    (fun u => image_extensions.any (fun ext => pyEndsWith (pyToLower u) ext))).take max_urls

/-- bot.py lines 517-521: the images downloaded from the first max_images
    image attachments (failed downloads are skipped). -/
def attachment_images (env : WalkEnv) (max_images : Nat) (m : Msg) : List String :=
  ((m.attachments.filter attachment_is_image).take max_images).filterMap
    (fun a => env.resolve_image a.url)

/-- bot.py lines 516-529: download at most max_images image attachments,
    then, if still under the cap, resolve text URLs, taking at most
    (max_images - already downloaded) of the extracted list. -/
def node_images (env : WalkEnv) (max_images max_urls : Nat) (m : Msg) : List String :=
  if (attachment_images env max_images m).length < max_images then
    attachment_images env max_images m ++
      ((extract_image_urls env (node_text env m) max_urls).take
        (max_images - (attachment_images env max_images m).length)).filterMap
          env.resolve_image
  else attachment_images env max_images m

/-- Role of a conversation turn ("user" or "model" in the source). -/
inductive Role where
  | user
  | model
deriving DecidableEq

/-- The populated MsgNode fields (bot.py dataclass MsgNode, lines 57-67,
    populated at lines 505-558). -/
structure NodeData where
  text : String
  images : List String
  role : Role
  user_id : Option Nat
  display_name : Option String
  has_bad_attachments : Bool
  fetch_parent_failed : Bool
  parent_msg : Option Nat
deriving DecidableEq

/-- Node population (bot.py lines 505-558). -/
def populate (env : WalkEnv) (max_images max_urls : Nat) (m : Msg) : NodeData :=
  { text := node_text env m
    images := node_images env max_images max_urls m
    role := if m.author_is_self then Role.model else Role.user
    user_id := if m.author_is_self then none else some m.author_id
    display_name := if m.author_is_self then none else some m.display_name
    has_bad_attachments :=
      (m.attachments.filter attachment_is_image).length < m.attachments.length
    fetch_parent_failed := m.fetch_fails
    parent_msg := if m.fetch_fails then none else m.parent_id }

/-- One part of a conversation turn: a text part or an encoded image. -/
inductive Part where
  | text (s : String)
  | image (tag : String)
deriving DecidableEq

def Part.isImagePart : Part → Bool
  | Part.text _ => false
  | Part.image _ => true

/-- One conversation turn handed to the model ({"role": ..., "parts": ...}). -/
structure Turn where
  role : Role
  parts : List Part
deriving DecidableEq

/-- The user-facing warnings, one constructor per warning string built in
    bot.py lines 580-587 (the numeric argument is the number interpolated
    into the string, so distinct numbers are distinct warnings, exactly as
    distinct strings are distinct set elements in the source). -/
inductive Warning where
  /-- "Max N characters per message" -/
  | maxTextW (n : Nat)
  /-- "Max N images per message" -/
  | maxImagesW (n : Nat)
  /-- "Unsupported attachments" -/
  | badAttachments
  /-- "Only using last N messages" -/
  | truncatedHistory (n : Nat)
deriving DecidableEq

/-- Python set insertion (user_warnings.add / conversation_user_ids.add). -/
def insertNew {α : Type} [DecidableEq α] (x : α) (xs : List α) : List α :=
  if x ∈ xs then xs else xs ++ [x]

/-- The walk limits read from the config at bot.py lines 490-493. -/
structure Limits where
  max_text : Nat
  max_images : Nat
  max_messages : Nat
  max_urls : Nat
deriving DecidableEq

/-- The mutable loop state of the walk: messages, user_warnings and
    conversation_user_ids (bot.py lines 496-499), plus a ghost list of the
    messages processed so far (used only to state theorems). -/
structure WalkState where
  messages : List Turn
  warnings : List Warning
  user_ids : List Nat
  visited : List Msg
deriving DecidableEq

/-- bot.py lines 564-574: the parts of the current turn.  The text part is
    present when the truncated text is non-empty, with the display name
    prefix for user turns; images are truncated to max_images. -/
def turn_text (lim : Limits) (n : NodeData) : String :=
  match n.role, n.display_name with
  | Role.user, some dn =>
    if dn.isEmpty then pyTake n.text lim.max_text
    else dn ++ ": " ++ pyTake n.text lim.max_text
  | _, _ => pyTake n.text lim.max_text

def turn_parts (lim : Limits) (n : NodeData) : List Part :=
  (if (pyTake n.text lim.max_text).isEmpty then [] else [Part.text (turn_text lim n)])
  ++ (n.images.take lim.max_images).map Part.image

/-- bot.py lines 580-587: warning collection for one node.  msgs_len is
    len(messages) after the append of this turn. -/
def step_warnings (lim : Limits) (n : NodeData) (msgs_len : Nat)
    (ws : List Warning) : List Warning :=
  let ws := if lim.max_text < n.text.length then
      insertNew (Warning.maxTextW lim.max_text) ws else ws
  let ws := if lim.max_images < n.images.length then
      insertNew (Warning.maxImagesW lim.max_images) ws else ws
  let ws := if n.has_bad_attachments then insertNew Warning.badAttachments ws else ws
  if n.fetch_parent_failed || (n.parent_msg.isSome && msgs_len = lim.max_messages)
  then insertNew (Warning.truncatedHistory msgs_len) ws else ws

/-- One iteration of the walk loop body (bot.py lines 502-589): populate
    the node, record the author, append the turn when it has parts, collect
    warnings, and return the next current message. -/
def walk_step (env : WalkEnv) (lim : Limits) (m : Msg) (st : WalkState) :
    Option Msg × WalkState :=
  let n := populate env lim.max_images lim.max_urls m
  let user_ids := match n.user_id with
    | some u => if u ≠ 0 then insertNew u st.user_ids else st.user_ids
    | none => st.user_ids
  let parts := turn_parts lim n
  let messages := if parts.isEmpty then st.messages
    else st.messages ++ [{ role := n.role, parts := parts }]
  let warnings := step_warnings lim n messages.length st.warnings
  (n.parent_msg.bind env.store,
   { messages := messages, warnings := warnings, user_ids := user_ids,
     visited := st.visited ++ [m] })

/-- The walk loop (bot.py line 501:
    while curr_msg is not None and len(messages) < max_messages), with an
    explicit iteration budget: the result is none when the guard is still
    true after fuel iterations, i.e. when the loop runs longer than fuel. -/
def walk_aux (env : WalkEnv) (lim : Limits) :
    Nat → Option Msg → WalkState → Option WalkState
  | _, none, st => some st
  | 0, some _, st => if lim.max_messages ≤ st.messages.length then some st else none
  | Nat.succ f, some m, st =>
    if lim.max_messages ≤ st.messages.length then some st
    else walk_aux env lim f (walk_step env lim m st).1 (walk_step env lim m st).2

/-- Initial walk state (bot.py lines 496-499). -/
def init_walk : WalkState :=
  { messages := [], warnings := [], user_ids := [], visited := [] }

/-- Running the whole walk from the trigger message. -/
def walk_run (env : WalkEnv) (lim : Limits) (trigger : Msg) (fuel : Nat) :
    Option WalkState :=
  walk_aux env lim fuel (some trigger) init_walk

/-! ## Claim C3: termination of the walk -/

/-- C3 input: an empty message (no content, embeds or attachments) whose
    resolved parent is itself. -/
def msgC3 : Msg :=
  { id := 1, content := "", embeds := [], attachments := [],
    author_is_self := false, author_id := 7, display_name := "u",
    parent_id := some 1, fetch_fails := false }

/-- C3 environment: the store resolves id 1 to msgC3 itself. -/
def envC3 : WalkEnv :=
  { bot_mention := "<@999>"
    resolve_image := fun _ => none
    find_urls := fun _ => []
    store := fun i => if i = 1 then some msgC3 else none }

/-- The default limits of bot.py lines 490-493. -/
def limC3 : Limits :=
  { max_text := 100000, max_images := 5, max_messages := 25, max_urls := 3 }

theorem walk_stepC3_fst (st : WalkState) :
    (walk_step envC3 limC3 msgC3 st).1 = some msgC3 := rfl

theorem walk_stepC3_messages (st : WalkState) :
    ((walk_step envC3 limC3 msgC3 st).2).messages = st.messages := rfl

theorem c3_aux : ∀ (fuel : Nat) (st : WalkState), st.messages = [] →
    walk_aux envC3 limC3 fuel (some msgC3) st = none := by
  intro fuel
  induction fuel with
  | zero => intro st h; simp [walk_aux, h, limC3]
  | succ f ih =>
    intro st h
    rw [walk_aux, if_neg (by simp [h, limC3]), walk_stepC3_fst]
    exact ih _ (by rw [walk_stepC3_messages, h])

/-- Claim C3 (code bug): on a self-referential lineage of a message whose
    turn has no parts (empty text, no images), the walk loop never exits:
    len(messages) never grows, so the guard len(messages) < max_messages
    stays true forever.  For every iteration budget the loop is still
    running, i.e. the walk does not terminate, contradicting the claimed
    bound of max_messages iterations. -/
theorem c3_walk_diverges : ∀ fuel : Nat, walk_run envC3 limC3 msgC3 fuel = none := by
  intro fuel
  exact c3_aux fuel init_walk rfl

/-! ## Claims C4 and C5: bounds, warnings and rejected attachments -/

/-- Two well-formed image attachments. -/
def attC4a : Attachment := { content_type := some ("image/png"), url := "u1" }

def attC4b : Attachment := { content_type := some ("image/png"), url := "u2" }

/-- C4/C5 input: a message with two image attachments and no parent. -/
def msgC4 : Msg :=
  { id := 1, content := "hi", embeds := [], attachments := [attC4a, attC4b],
    author_is_self := false, author_id := 7, display_name := "Bob",
    parent_id := none, fetch_fails := false }

/-- C4/C5 environment: every image download succeeds. -/
def envC4 : WalkEnv :=
  { bot_mention := "<@999>"
    resolve_image := fun u => some u
    find_urls := fun _ => []
    store := fun _ => none }

/-- Limits with max_images = 1, so one of the two image attachments is
    dropped by the cap. -/
def limC4 : Limits :=
  { max_text := 100, max_images := 1, max_messages := 25, max_urls := 3 }

/-- The walk state that the C4/C5 run produces: one user turn with the
    attributed text and the single surviving image, no warnings. -/
def stC4 : WalkState :=
  { messages := [{ role := Role.user,
                   parts := [Part.text ("Bob: hi"), Part.image ("u1")] }],
    warnings := [], user_ids := [7], visited := [msgC4] }

/-- Claim C4 states that truncating a message beyond the image cap adds the
    "Max N images per message" warning.  Counterexample: a message with two
    image attachments under max_images = 1 is truncated to one image, yet
    the finished walk carries no warning at all: the source only checks
    len(curr_node.images) > max_images (line 582), which never holds
    because population already caps the stored list (lines 518, 526). -/
theorem c4_counterexample :
    limC4.max_images = 1
    ∧ (msgC4.attachments.filter attachment_is_image).length = 2
    ∧ walk_run envC4 limC4 msgC4 25 = some stC4 := by
  decide

theorem mem_insertNew_of_mem {α : Type} [DecidableEq α] {w : α} {xs : List α}
    (v : α) (h : w ∈ xs) : w ∈ insertNew v xs := by
  unfold insertNew
  split
  · exact h
  · exact List.mem_append_left _ h

theorem mem_insertNew_self {α : Type} [DecidableEq α] (v : α) (xs : List α) :
    v ∈ insertNew v xs := by
  unfold insertNew
  split
  · assumption
  · simp

theorem step_warnings_mono (lim : Limits) (n : NodeData) (len : Nat)
    (ws : List Warning) {w : Warning} (h : w ∈ ws) :
    w ∈ step_warnings lim n len ws := by
  unfold step_warnings
  split
  all_goals split
  all_goals split
  all_goals split
  all_goals
    first
    | exact h
    | exact mem_insertNew_of_mem _ h
    | exact mem_insertNew_of_mem _ (mem_insertNew_of_mem _ h)
    | exact mem_insertNew_of_mem _ (mem_insertNew_of_mem _ (mem_insertNew_of_mem _ h))
    | exact mem_insertNew_of_mem _
        (mem_insertNew_of_mem _ (mem_insertNew_of_mem _ (mem_insertNew_of_mem _ h)))

theorem step_warnings_text (lim : Limits) (n : NodeData) (len : Nat)
    (ws : List Warning) (h : lim.max_text < n.text.length) :
    Warning.maxTextW lim.max_text ∈ step_warnings lim n len ws := by
  unfold step_warnings
  rw [if_pos h]
  have h1 : Warning.maxTextW lim.max_text ∈ insertNew (Warning.maxTextW lim.max_text) ws :=
    mem_insertNew_self _ _
  split
  all_goals split
  all_goals split
  all_goals
    first
    | exact h1
    | exact mem_insertNew_of_mem _ h1
    | exact mem_insertNew_of_mem _ (mem_insertNew_of_mem _ h1)
    | exact mem_insertNew_of_mem _ (mem_insertNew_of_mem _ (mem_insertNew_of_mem _ h1))

/-- The attachment downloads respect the cap. -/
theorem attachment_images_le (env : WalkEnv) (max_images : Nat) (m : Msg) :
    (attachment_images env max_images m).length ≤ max_images := by
  calc (attachment_images env max_images m).length
      ≤ ((m.attachments.filter attachment_is_image).take max_images).length :=
        List.length_filterMap_le _ _
    _ ≤ max_images := by rw [List.length_take]; exact Nat.min_le_left _ _

/-- Every stored node image list respects the cap: attachments contribute at
    most max_images elements and text URLs at most the remaining headroom. -/
theorem node_images_le (env : WalkEnv) (max_images max_urls : Nat) (m : Msg) :
    (node_images env max_images max_urls m).length ≤ max_images := by
  unfold node_images
  split
  · rename_i hlt
    rw [List.length_append]
    have h2 : (((extract_image_urls env (node_text env m) max_urls).take
        (max_images - (attachment_images env max_images m).length)).filterMap
          env.resolve_image).length ≤
        max_images - (attachment_images env max_images m).length := by
      calc (((extract_image_urls env (node_text env m) max_urls).take
            (max_images - (attachment_images env max_images m).length)).filterMap
              env.resolve_image).length
          ≤ ((extract_image_urls env (node_text env m) max_urls).take
              (max_images - (attachment_images env max_images m).length)).length :=
            List.length_filterMap_le _ _
        _ ≤ max_images - (attachment_images env max_images m).length := by
            rw [List.length_take]; exact Nat.min_le_left _ _
    omega
  · exact attachment_images_le env max_images m

theorem filter_image_map (l : List String) :
    (List.filter Part.isImagePart (l.map Part.image)).length = l.length := by
  induction l with
  | nil => rfl
  | cons a l ih => simp [List.filter_cons, Part.isImagePart, ih]

/-- The image parts of a built turn are capped at max_images. -/
theorem turn_parts_image_count (lim : Limits) (n : NodeData) :
    ((turn_parts lim n).filter Part.isImagePart).length ≤ lim.max_images := by
  unfold turn_parts
  have h3 : ((if (pyTake n.text lim.max_text).isEmpty then ([] : List Part)
      else [Part.text (turn_text lim n)]).filter Part.isImagePart).length = 0 := by
    split <;> rfl
  rw [List.filter_append, List.length_append, h3, filter_image_map, List.length_take]
  simp

/-- The walk invariant used for the amended claim C4. -/
def c4_inv (env : WalkEnv) (lim : Limits) (st : WalkState) : Prop :=
  st.messages.length ≤ lim.max_messages
  ∧ (∀ t ∈ st.messages, (t.parts.filter Part.isImagePart).length ≤ lim.max_images)
  ∧ (∀ m ∈ st.visited, lim.max_text < (node_text env m).length →
      Warning.maxTextW lim.max_text ∈ st.warnings)

theorem c4_inv_step (env : WalkEnv) (lim : Limits) (m : Msg) (st : WalkState)
    (hlen : st.messages.length < lim.max_messages) (h : c4_inv env lim st) :
    c4_inv env lim ((walk_step env lim m st).2) := by
  obtain ⟨h1, h2, h3⟩ := h
  simp only [walk_step, c4_inv]
  refine ⟨?_, ?_, ?_⟩
  · split
    · exact h1
    · rw [List.length_append]; simp; omega
  · intro t ht
    split at ht
    · exact h2 t ht
    · rcases List.mem_append.mp ht with hold | hnew
      · exact h2 t hold
      · rw [List.mem_singleton.mp hnew]
        exact turn_parts_image_count lim (populate env lim.max_images lim.max_urls m)
  · intro m2 hm2 htext
    rcases List.mem_append.mp hm2 with hold | hnew
    · exact step_warnings_mono _ _ _ _ (h3 m2 hold htext)
    · have hm : m2 = m := List.mem_singleton.mp hnew
      subst hm
      exact step_warnings_text _ _ _ _ (by simpa [populate] using htext)

theorem walk_aux_c4_inv (env : WalkEnv) (lim : Limits) :
    ∀ (fuel : Nat) (curr : Option Msg) (st r : WalkState), c4_inv env lim st →
      walk_aux env lim fuel curr st = some r → c4_inv env lim r := by
  intro fuel
  induction fuel with
  | zero =>
    intro curr st r h hr
    cases curr with
    | none =>
      rw [walk_aux] at hr
      cases Option.some.inj hr
      exact h
    | some m =>
      rw [walk_aux] at hr
      split at hr
      · cases Option.some.inj hr; exact h
      · simp at hr
  | succ f ih =>
    intro curr st r h hr
    cases curr with
    | none =>
      rw [walk_aux] at hr
      cases Option.some.inj hr
      exact h
    | some m =>
      rw [walk_aux] at hr
      split at hr
      · cases Option.some.inj hr; exact h
      · rename_i hge
        exact ih _ _ _ (c4_inv_step env lim m st (by omega) h) hr

/-- Claim C4 (corrected): the finished walk has at most max_messages turns
    and at most max_images image parts per turn; a message whose text
    exceeds max_text contributes the max-characters warning; and every
    stored image list is capped at max_images during population, which is
    why the max-images warning of line 582 can never fire and attachment
    truncation beyond the cap stays silent. -/
theorem c4_amended_thm (env : WalkEnv) (lim : Limits) (trigger : Msg)
    (fuel : Nat) (r : WalkState) (h : walk_run env lim trigger fuel = some r) :
    r.messages.length ≤ lim.max_messages
    ∧ (∀ t ∈ r.messages, (t.parts.filter Part.isImagePart).length ≤ lim.max_images)
    ∧ (∀ m ∈ r.visited, lim.max_text < (node_text env m).length →
        Warning.maxTextW lim.max_text ∈ r.warnings)
    ∧ (∀ m : Msg, (node_images env lim.max_images lim.max_urls m).length ≤ lim.max_images) := by
  have hinv : c4_inv env lim r := by
    refine walk_aux_c4_inv env lim fuel (some trigger) init_walk r ?_ h
    refine ⟨by simp [init_walk], ?_, ?_⟩
    · intro t ht; simp [init_walk] at ht
    · intro m hm; simp [init_walk] at hm
  exact ⟨hinv.1, hinv.2.1, hinv.2.2, fun m => node_images_le env lim.max_images lim.max_urls m⟩

/-- Witness for c4_amended_thm at the concrete C4 run. -/
theorem c4_amended_witness :
    stC4.messages.length ≤ limC4.max_messages
    ∧ (∀ t ∈ stC4.messages,
        (t.parts.filter Part.isImagePart).length ≤ limC4.max_images)
    ∧ (∀ m ∈ stC4.visited, limC4.max_text < (node_text envC4 m).length →
        Warning.maxTextW limC4.max_text ∈ stC4.warnings)
    ∧ (∀ m : Msg,
        (node_images envC4 limC4.max_images limC4.max_urls m).length ≤ limC4.max_images) :=
  c4_amended_thm envC4 limC4 msgC4 25 stC4 (by decide)

/-- Claim C5 states that has_bad_attachments becomes true when an
    attachment is dropped for being beyond the max_images cap.
    Counterexample: two image attachments under max_images = 1; one is
    dropped by the cap (only one image stored), yet the flag is false,
    because line 534 compares len(attachments) with len(good_attachments)
    only. -/
theorem c5_counterexample :
    msgC4.attachments.length = 2
    ∧ (msgC4.attachments.filter attachment_is_image).length = 2
    ∧ (populate envC4 1 3 msgC4).images.length = 1
    ∧ (populate envC4 1 3 msgC4).has_bad_attachments = false := by
  decide

theorem filter_lt_any {α : Type} (p : α → Bool) (l : List α) :
    (decide ((l.filter p).length < l.length)) = l.any (fun a => !p a) := by
  induction l with
  | nil => rfl
  | cons a l ih =>
    by_cases h : p a
    · simp only [List.filter_cons, h, if_pos, List.length_cons, List.any_cons,
        h, Bool.not_true, Bool.false_or]
      rw [← ih]
      simp
    · have hb : p a = false := by simpa using h
      simp only [List.filter_cons, hb, Bool.false_eq_true, if_false, List.length_cons,
        List.any_cons, Bool.not_false, Bool.true_or]
      have : (l.filter p).length < l.length + 1 :=
        Nat.lt_succ_of_le (List.length_filter_le p l)
      simpa using this

/-- Claim C5 (corrected): has_bad_attachments is true exactly when some
    attachment is not an image (missing or non-image content type); drops
    caused by the max_images cap or by download failures never set it. -/
theorem c5_amended_thm (env : WalkEnv) (max_images max_urls : Nat) (m : Msg) :
    (populate env max_images max_urls m).has_bad_attachments
      = m.attachments.any (fun a => !attachment_is_image a) := by
  simp only [populate]
  exact filter_lt_any attachment_is_image m.attachments

/-! ## Streaming response driver (bot.py lines 624-754)

The embedding covers rich (embed) mode, the mode in which the splitting,
throttling and finalizing behavior of the claims lives; the message
capacity is kept as a parameter.  Clock readings are natural numbers
(seconds).  The ghost field edits records every edit issued to an already
sent message during the stream; final-update edits are not recorded
because every claim about spacing exempts the final flush. -/

/-- The in-progress marker appended to streaming messages (" ⚪", line 693). -/
def marker : String := " ⚪"

/-- bot.py line 629: max_message_length = 4096 - len(" ⚪"). -/
def rich_max_message_length : Nat := 4096 - marker.length

/-- The fixed user-visible error message (bot.py line 736). -/
def error_text : String := "Sorry, I encountered an error while generating a response."

/-- One streamed chunk: its text, the clock value at processing time
    (line 663), and which Discord call of this loop iteration raises.  A
    raise is caught by the inner except (lines 707-709), which skips the
    rest of the iteration and continues the stream, so only the mutations
    preceding the raising call survive.  An iteration performs at most two
    platform calls: the overflow branch issues the finalize edit (line
    672) and then the follow-up send (line 682); the first-message branch
    and the throttled branch issue a single call.  edit_fails: the first
    call of the iteration raises.  send_fails: the first call succeeded
    and the second call, the overflow-branch send, raises (meaningless and
    ignored in the one-call branches). -/
structure Delta where
  text : String
  time : Nat
  edit_fails : Bool
  send_fails : Bool
deriving DecidableEq

inductive EditKind where
  /-- The throttled in-progress edit (line 704). -/
  | periodic
  /-- The finalize edit issued when the active message overflows (line 672). -/
  | overflow
deriving DecidableEq

/-- A record of one edit issued to an existing outgoing message while the
    stream is active. -/
structure EditRec where
  time : Nat
  kind : EditKind
deriving DecidableEq

/-- The driver state: response_contents, chunk_buffer, the currently
    displayed content of each outgoing message (in order), last_edit_time
    (line 655), and the ghost edit log. -/
structure DriverState where
  contents : List String
  buffer : String
  msgs : List String
  last_edit_time : Nat
  edits : List EditRec
deriving DecidableEq

/-- The state before the first chunk (bot.py lines 625-655). -/
def init_driver : DriverState :=
  { contents := [], buffer := "", msgs := [], last_edit_time := 0, edits := [] }

/-- One iteration of the chunk loop (bot.py lines 657-709): the buffer
    grows (line 660), then either the overflow branch (667-685), the
    first-message branch (688-698) or the throttled edit (701-705) runs.
    When edit_fails is true, or when an edit targets an empty
    response_msgs list (an IndexError), the iteration stops at its first
    Discord call; the first-message branch commits the buffer before its
    send, while the overflow branch commits only after its finalize edit
    succeeded.  The overflow branch has a second failure point: when the
    finalize edit (line 672) succeeds but the follow-up send (line 682)
    raises, the contents gain the buffer entry (line 675), the buffer is
    cleared (line 676), the active message keeps its finalized content, no
    new message appears, and last_edit_time stays stale (line 683 is
    skipped). -/
def process_chunk (cap : Nat) (s : DriverState) (d : Delta) : DriverState :=
  match s.contents.getLast? with
  | none =>
    if d.edit_fails then
      { s with
        contents := [s.buffer ++ d.text]
        buffer := "" }
    else
      { contents := [s.buffer ++ d.text]
        buffer := ""
        msgs := s.msgs ++ [s.buffer ++ d.text ++ marker]
        last_edit_time := d.time
        edits := s.edits }
  | some last =>
    if cap < (last ++ (s.buffer ++ d.text)).length then
      if d.edit_fails || s.msgs.isEmpty then { s with buffer := s.buffer ++ d.text }
      else if d.send_fails then
        { contents := s.contents ++ [s.buffer ++ d.text]
          buffer := ""
          msgs := s.msgs.dropLast ++ [last]
          last_edit_time := s.last_edit_time
          edits := s.edits ++ [{ time := d.time, kind := EditKind.overflow }] }
      else
        { contents := s.contents ++ [s.buffer ++ d.text]
          buffer := ""
          msgs := s.msgs.dropLast ++ [last, s.buffer ++ d.text ++ marker]
          last_edit_time := d.time
          edits := s.edits ++ [{ time := d.time, kind := EditKind.overflow }] }
    else if s.last_edit_time + 2 ≤ d.time then
      if d.edit_fails || s.msgs.isEmpty then { s with buffer := s.buffer ++ d.text }
      else
        { s with
          buffer := s.buffer ++ d.text
          msgs := s.msgs.dropLast ++ [last ++ (s.buffer ++ d.text) ++ marker]
          last_edit_time := d.time
          edits := s.edits ++ [{ time := d.time, kind := EditKind.periodic }] }
    else { s with buffer := s.buffer ++ d.text }

/-- The final update on stream completion (bot.py lines 711-723): fold the
    remaining buffer into the last committed content, then give every
    content its final form, editing the messages that exist and sending
    the missing ones.  (With no contents the loop body never runs; a
    non-empty buffer with empty contents would raise in the source, but
    that state is unreachable since every chunk creates a content entry.) -/
def final_update (s : DriverState) : DriverState :=
  match s.contents.getLast? with
  | none => s
  | some last =>
    { s with
      contents := if s.buffer.isEmpty then s.contents
        else s.contents.dropLast ++ [last ++ s.buffer],
      msgs := (if s.buffer.isEmpty then s.contents
        else s.contents.dropLast ++ [last ++ s.buffer])
        ++ s.msgs.drop s.contents.length }

/-- The error path (bot.py lines 734-749): overwrite the active outgoing
    message with the fixed error text, or send a new message carrying it
    when none exists. -/
def error_update (s : DriverState) : DriverState :=
  if s.msgs.isEmpty then { s with msgs := [error_text] }
  else { s with msgs := s.msgs.dropLast ++ [error_text] }

/-- Processing the whole chunk stream (the for loop at line 657). -/
def run_stream (cap : Nat) (deltas : List Delta) : DriverState :=
  deltas.foldl (process_chunk cap) init_driver

/-- The whole streaming section in rich mode: the chunk loop followed by
    the final update, or by the error path when obtaining the next chunk
    raises after the given chunks (the outer except at line 734). -/
def run_driver (cap : Nat) (deltas : List Delta) (gen_error : Bool) : DriverState :=
  if gen_error then error_update (run_stream cap deltas)
  else final_update (run_stream cap deltas)

/-- A cached node registered for an outgoing response message. -/
structure RespNode where
  role : Role
  parent_msg : Option Nat
  text : String
deriving DecidableEq

/-- bot.py lines 636-642 and 751-754: every outgoing response message gets
    a MsgNode with the default role "model" and the trigger message as
    parent; after the stream (or the error path) the node text is set to
    the join of all response_contents. -/
def response_nodes (trigger : Nat) (s : DriverState) : List RespNode :=
  s.msgs.map (fun _ =>
    { role := Role.model, parent_msg := some trigger,
      text := String.join s.contents })

/-! ## Branch equations for process_chunk and final_update -/

theorem process_chunk_noop (cap : Nat) (s : DriverState) (d : Delta) (last : String)
    (h : s.contents.getLast? = some last)
    (hlen : (last ++ (s.buffer ++ d.text)).length ≤ cap)
    (ht : d.time < s.last_edit_time + 2) :
    process_chunk cap s d = { s with buffer := s.buffer ++ d.text } := by
  unfold process_chunk
  rw [h]
  simp only
  rw [if_neg (by omega), if_neg (by omega)]

theorem process_chunk_overflow (cap : Nat) (s : DriverState) (d : Delta) (last : String)
    (h : s.contents.getLast? = some last)
    (hlen : cap < (last ++ (s.buffer ++ d.text)).length)
    (hf : d.edit_fails = false) (hm : s.msgs.isEmpty = false)
    (hs : d.send_fails = false) :
    process_chunk cap s d =
      { contents := s.contents ++ [s.buffer ++ d.text]
        buffer := ""
        msgs := s.msgs.dropLast ++ [last, s.buffer ++ d.text ++ marker]
        last_edit_time := d.time
        edits := s.edits ++ [{ time := d.time, kind := EditKind.overflow }] } := by
  unfold process_chunk
  rw [h]
  simp only [hf, hm, hs]
  rw [if_pos hlen]
  simp

theorem string_isEmpty_false {s : String} (h : s.length ≠ 0) : s.isEmpty = false := by
  cases hx : s.isEmpty
  · rfl
  · have hs := (String.isEmpty_iff s).mp hx
    subst hs
    exact absurd rfl h

theorem final_update_flush (s : DriverState) (last : String)
    (h : s.contents.getLast? = some last) (hb : s.buffer.isEmpty = false) :
    final_update s =
      { s with
        contents := s.contents.dropLast ++ [last ++ s.buffer]
        msgs := (s.contents.dropLast ++ [last ++ s.buffer])
          ++ s.msgs.drop s.contents.length } := by
  unfold final_update
  rw [h]
  simp [hb]

theorem final_update_no_buffer (s : DriverState) (last : String)
    (h : s.contents.getLast? = some last) (hb : s.buffer.isEmpty = true) :
    final_update s =
      { s with msgs := s.contents ++ s.msgs.drop s.contents.length } := by
  unfold final_update
  rw [h]
  simp [hb]

/-! ## Claim C6: splitting across outgoing messages -/

theorem len_hello : ("Hello " : String).length = 6 := rfl

theorem len_world : ("world, " : String).length = 7 := rfl

theorem len_overflow : ("overflow!" : String).length = 9 := rfl

/-- The section-8 delta sequence with its filler as a parameter:
    "Hello ", "world, ", the filler, "overflow!". -/
def scenario (f : String) : List Delta :=
  [ { text := "Hello ", time := 0, edit_fails := false, send_fails := false },
    { text := "world, ", time := 0, edit_fails := false, send_fails := false },
    { text := f, time := 0, edit_fails := false, send_fails := false },
    { text := "overflow!", time := 0, edit_fails := false, send_fails := false } ]

/-- Evaluation of the scenario when the total stays within the cap: a
    single outgoing message carrying the whole response. -/
theorem scenario_one_msg (cap : Nat) (f : String) (h : 22 + f.length ≤ cap) :
    (run_driver cap (scenario f) false).msgs
      = ["Hello " ++ ("world, " ++ (f ++ "overflow!"))] := by
  show (final_update (List.foldl (process_chunk cap) init_driver (scenario f))).msgs = _
  rw [scenario, List.foldl_cons, List.foldl_cons, List.foldl_cons, List.foldl_cons,
    List.foldl_nil]
  have e1 : process_chunk cap init_driver ⟨"Hello ", 0, false, false⟩
      = ⟨["" ++ "Hello "], "", [("" ++ "Hello ") ++ marker], 0, []⟩ := rfl
  have e2 : process_chunk cap
        (⟨["" ++ "Hello "], "", [("" ++ "Hello ") ++ marker], 0, []⟩ : DriverState)
        ⟨"world, ", 0, false, false⟩
      = ⟨["" ++ "Hello "], "" ++ "world, ", [("" ++ "Hello ") ++ marker], 0, []⟩ :=
    process_chunk_noop cap _ _ ("" ++ "Hello ") (by rfl)
      (by simp only [String.empty_append, String.length_append, len_hello, len_world]
          omega)
      (by simp)
  have e3 : process_chunk cap
        (⟨["" ++ "Hello "], "" ++ "world, ", [("" ++ "Hello ") ++ marker], 0, []⟩ :
          DriverState) ⟨f, 0, false, false⟩
      = ⟨["" ++ "Hello "], ("" ++ "world, ") ++ f, [("" ++ "Hello ") ++ marker], 0, []⟩ :=
    process_chunk_noop cap _ _ ("" ++ "Hello ") (by rfl)
      (by simp only [String.empty_append, String.length_append, len_hello, len_world]
          omega)
      (by simp)
  have e4 : process_chunk cap
        (⟨["" ++ "Hello "], ("" ++ "world, ") ++ f, [("" ++ "Hello ") ++ marker], 0, []⟩ :
          DriverState) ⟨"overflow!", 0, false, false⟩
      = ⟨["" ++ "Hello "], (("" ++ "world, ") ++ f) ++ "overflow!",
         [("" ++ "Hello ") ++ marker], 0, []⟩ :=
    process_chunk_noop cap _ _ ("" ++ "Hello ") (by rfl)
      (by simp only [String.empty_append, String.length_append, len_hello, len_world,
            len_overflow]
          omega)
      (by simp)
  have e5 : final_update
        (⟨["" ++ "Hello "], (("" ++ "world, ") ++ f) ++ "overflow!",
          [("" ++ "Hello ") ++ marker], 0, []⟩ : DriverState)
      = ⟨[("" ++ "Hello ") ++ ((("" ++ "world, ") ++ f) ++ "overflow!")],
         (("" ++ "world, ") ++ f) ++ "overflow!",
         [("" ++ "Hello ") ++ ((("" ++ "world, ") ++ f) ++ "overflow!")], 0, []⟩ :=
    final_update_flush _ ("" ++ "Hello ") (by rfl)
      (string_isEmpty_false
        (by simp only [String.empty_append, String.length_append, len_world, len_overflow]
            omega))
  rw [e1, e2, e3, e4, e5]
  simp [String.append_assoc, String.empty_append]

/-- Evaluation of the scenario when only the final delta overflows the cap:
    two outgoing messages, the first carrying only the committed first
    delta and the second the entire uncommitted overflow buffer. -/
theorem scenario_two_msgs (cap : Nat) (f : String)
    (h3 : 13 + f.length ≤ cap) (h4 : cap < 22 + f.length) :
    (run_driver cap (scenario f) false).msgs
      = ["Hello ", "world, " ++ (f ++ "overflow!")] := by
  show (final_update (List.foldl (process_chunk cap) init_driver (scenario f))).msgs = _
  rw [scenario, List.foldl_cons, List.foldl_cons, List.foldl_cons, List.foldl_cons,
    List.foldl_nil]
  have e1 : process_chunk cap init_driver ⟨"Hello ", 0, false, false⟩
      = ⟨["" ++ "Hello "], "", [("" ++ "Hello ") ++ marker], 0, []⟩ := rfl
  have e2 : process_chunk cap
        (⟨["" ++ "Hello "], "", [("" ++ "Hello ") ++ marker], 0, []⟩ : DriverState)
        ⟨"world, ", 0, false, false⟩
      = ⟨["" ++ "Hello "], "" ++ "world, ", [("" ++ "Hello ") ++ marker], 0, []⟩ :=
    process_chunk_noop cap _ _ ("" ++ "Hello ") (by rfl)
      (by simp only [String.empty_append, String.length_append, len_hello, len_world]
          omega)
      (by simp)
  have e3 : process_chunk cap
        (⟨["" ++ "Hello "], "" ++ "world, ", [("" ++ "Hello ") ++ marker], 0, []⟩ :
          DriverState) ⟨f, 0, false, false⟩
      = ⟨["" ++ "Hello "], ("" ++ "world, ") ++ f, [("" ++ "Hello ") ++ marker], 0, []⟩ :=
    process_chunk_noop cap _ _ ("" ++ "Hello ") (by rfl)
      (by simp only [String.empty_append, String.length_append, len_hello, len_world]
          omega)
      (by simp)
  have e4 : process_chunk cap
        (⟨["" ++ "Hello "], ("" ++ "world, ") ++ f, [("" ++ "Hello ") ++ marker], 0, []⟩ :
          DriverState) ⟨"overflow!", 0, false, false⟩
      = ⟨["" ++ "Hello ", (("" ++ "world, ") ++ f) ++ "overflow!"],
         "",
         ["" ++ "Hello ", ((("" ++ "world, ") ++ f) ++ "overflow!") ++ marker],
         0,
         [⟨0, EditKind.overflow⟩]⟩ :=
    process_chunk_overflow cap _ _ ("" ++ "Hello ") (by rfl)
      (by simp only [String.empty_append, String.length_append, len_hello, len_world,
            len_overflow]
          omega)
      rfl rfl rfl
  have e5 : final_update
        (⟨["" ++ "Hello ", (("" ++ "world, ") ++ f) ++ "overflow!"],
          "",
          ["" ++ "Hello ", ((("" ++ "world, ") ++ f) ++ "overflow!") ++ marker],
          0,
          [⟨0, EditKind.overflow⟩]⟩ : DriverState)
      = ⟨["" ++ "Hello ", (("" ++ "world, ") ++ f) ++ "overflow!"],
         "",
         ["" ++ "Hello ", (("" ++ "world, ") ++ f) ++ "overflow!"],
         0,
         [⟨0, EditKind.overflow⟩]⟩ :=
    final_update_no_buffer _ ((("" ++ "world, ") ++ f) ++ "overflow!") (by rfl) rfl
  rw [e1, e2, e3, e4, e5]
  simp [String.append_assoc, String.empty_append]

/-- 3800 filler characters, the filler of the section-8 sequence. -/
def fillerC6 : String := String.mk (List.replicate 3800 'a')

theorem len_fillerC6 : fillerC6.length = 3800 := by
  rw [fillerC6, String.length_mk, List.length_replicate]

/-- Claim C6 states that the section-8 delta sequence against a
    4093-character cap produces exactly two outgoing messages.
    Counterexample: the sequence totals 6 + 7 + 3800 + 9 = 3822 characters,
    which never exceeds the cap, so the driver produces exactly one
    outgoing message carrying the whole response. -/
theorem c6_counterexample :
    ("Hello " ++ ("world, " ++ (fillerC6 ++ "overflow!"))).length = 3822
    ∧ (run_driver 4093 (scenario fillerC6) false).msgs.length = 1 := by
  constructor
  · simp [String.length_append, len_hello, len_world, len_overflow, len_fillerC6]
  · rw [scenario_one_msg 4093 fillerC6 (by rw [len_fillerC6]; omega)]
    rfl

/-- 4075 filler characters: enough that the final delta overflows the cap. -/
def fillerC6b : String := String.mk (List.replicate 4075 'a')

theorem len_fillerC6b : fillerC6b.length = 4075 := by
  rw [fillerC6b, String.length_mk, List.length_replicate]

/-- Claim C6 (corrected): when appending the buffered deltas would exceed
    the cap, the driver finalizes the active message with only the
    already-committed portion and opens a new message seeded with the whole
    uncommitted buffer.  Because throttled edits never commit the buffer,
    the committed portion of the first message is only the first delta, and
    the overflow carried into the second message is everything after it:
    with the filler enlarged to 4075 characters (so that the final delta
    overflows the 4093 cap), the run yields exactly two outgoing messages,
    the first being merely "Hello " and the second the entire overflow
    buffer. -/
theorem c6_amended_thm :
    (run_driver 4093 (scenario fillerC6b) false).msgs
      = ["Hello ", "world, " ++ (fillerC6b ++ "overflow!")]
    ∧ 4093 < ("Hello " ++ ("world, " ++ (fillerC6b ++ "overflow!"))).length := by
  constructor
  · exact scenario_two_msgs 4093 fillerC6b (by rw [len_fillerC6b]; omega)
      (by rw [len_fillerC6b]; omega)
  · simp [String.length_append, len_hello, len_world, len_overflow, len_fillerC6b]

/-! ## Claim C7: the minimum edit interval -/

/-- C7 counterexample deltas: a first send at t=0, a throttled edit at t=2,
    then an overflowing delta at t=3. -/
def deltasC7 : List Delta :=
  [ { text := "a", time := 0, edit_fails := false, send_fails := false },
    { text := "b", time := 2, edit_fails := false, send_fails := false },
    { text := "xxxxx", time := 3, edit_fails := false, send_fails := false } ]

/-- C7 partial-failure deltas: the overflow at t=1 gets its finalize edit
    through but its follow-up send fails, leaving the edit timer stale. -/
def deltasC7b : List Delta :=
  [ { text := "aa", time := 0, edit_fails := false, send_fails := false },
    { text := "bbb", time := 1, edit_fails := false, send_fails := true },
    { text := "c", time := 2, edit_fails := false, send_fails := false } ]

/-- Claim C7 states that any two consecutive stream-time edits are at
    least 2 seconds apart.  Two counterexamples: first, a throttled edit
    at t=2 followed by an overflow-finalize edit at t=3, only 1 second
    later, because the finalize edit of the overflow branch (line 672) is
    not gated by the 2-second window.  Second, even a periodic edit can
    follow a recorded edit within the window: when an overflow finalize
    edit at t=1 succeeds but its follow-up send (line 682) fails,
    last_edit_time stays stale (line 683 is skipped), so a periodic edit
    fires already at t=2, 1 second after the recorded overflow edit. -/
theorem c7_counterexample :
    ((run_stream 5 deltasC7).edits
      = [{ time := 2, kind := EditKind.periodic },
         { time := 3, kind := EditKind.overflow }]
      ∧ ¬(2 + 2 ≤ 3))
    ∧ ((run_stream 4 deltasC7b).edits
      = [{ time := 1, kind := EditKind.overflow },
         { time := 2, kind := EditKind.periodic }]
      ∧ ¬(1 + 2 ≤ 2)) := by
  decide

/-- The amended minimum-interval property: any two recorded periodic
    (throttled) edits are at least 2 seconds apart, in order.  Overflow
    finalize edits and the final flush are not throttled, and after an
    overflow whose follow-up send failed a periodic edit may come within
    2 seconds of the overflow edit, so only periodic-periodic pairs are
    constrained. -/
def periodic_spaced (es : List EditRec) : Prop :=
  List.Pairwise
    (fun e1 e2 => e1.kind = EditKind.periodic → e2.kind = EditKind.periodic →
      e1.time + 2 ≤ e2.time) es

/-- How one chunk changes the edit log and the edit timer: either nothing
    changes, or the timer resets on a successful send, or an overflow edit
    is appended (with the timer reset exactly when the follow-up send
    succeeded), or a periodic edit is appended, which happens only 2
    seconds after the previous timer reset. -/
theorem process_chunk_edit_cases (cap : Nat) (s : DriverState) (d : Delta) :
    ((process_chunk cap s d).edits = s.edits
      ∧ (process_chunk cap s d).last_edit_time = s.last_edit_time)
    ∨ ((process_chunk cap s d).edits = s.edits
      ∧ (process_chunk cap s d).last_edit_time = d.time)
    ∨ ((process_chunk cap s d).edits = s.edits ++ [⟨d.time, EditKind.overflow⟩]
      ∧ ((process_chunk cap s d).last_edit_time = d.time
        ∨ (process_chunk cap s d).last_edit_time = s.last_edit_time))
    ∨ ((process_chunk cap s d).edits = s.edits ++ [⟨d.time, EditKind.periodic⟩]
      ∧ (process_chunk cap s d).last_edit_time = d.time
      ∧ s.last_edit_time + 2 ≤ d.time) := by
  unfold process_chunk
  split
  · split
    · left; exact ⟨rfl, rfl⟩
    · right; left; exact ⟨rfl, rfl⟩
  · split
    · split
      · left; exact ⟨rfl, rfl⟩
      · split
        · right; right; left; exact ⟨rfl, Or.inr rfl⟩
        · right; right; left; exact ⟨rfl, Or.inl rfl⟩
    · split
      · rename_i hti
        split
        · left; exact ⟨rfl, rfl⟩
        · right; right; right; exact ⟨rfl, rfl, hti⟩
      · left; exact ⟨rfl, rfl⟩

theorem mem_of_getLast? {α : Type} {l : List α} {a : α} (h : l.getLast? = some a) :
    a ∈ l := by
  have hx : a ∈ l.getLast? := by rw [h]; rfl
  obtain ⟨hne, heq⟩ := List.mem_getLast?_eq_getLast hx
  rw [heq]
  exact List.getLast_mem hne

theorem stream_edits_spaced_aux (cap : Nat) :
    ∀ (deltas : List Delta) (s : DriverState),
      List.Pairwise (fun a b => a.time ≤ b.time) deltas →
      (∀ d ∈ deltas, s.last_edit_time ≤ d.time) →
      (∀ e ∈ s.edits, e.kind = EditKind.periodic → e.time ≤ s.last_edit_time) →
      periodic_spaced s.edits →
      periodic_spaced (deltas.foldl (process_chunk cap) s).edits := by
  intro deltas
  induction deltas with
  | nil => intro s _ _ _ h4; exact h4
  | cons d rest ih =>
    intro s hpw hle hbd hsp
    rw [List.foldl_cons]
    have hd : s.last_edit_time ≤ d.time := hle d (List.mem_cons_self d rest)
    have hrest : ∀ d2 ∈ rest, d.time ≤ d2.time := (List.pairwise_cons.mp hpw).1
    have hpw2 := List.Pairwise.of_cons hpw
    rcases process_chunk_edit_cases cap s d with
      ⟨he, hl⟩ | ⟨he, hl⟩ | ⟨he, hl⟩ | ⟨he, hl, hgap⟩
    · exact ih _ hpw2
        (fun d2 h2 => by rw [hl]; exact hle d2 (List.mem_cons_of_mem d h2))
        (fun e h2 hk => by rw [hl]; exact hbd e (by rw [he] at h2; exact h2) hk)
        (by rw [he]; exact hsp)
    · exact ih _ hpw2
        (fun d2 h2 => by rw [hl]; exact hrest d2 h2)
        (fun e h2 hk => by
          rw [hl]
          exact le_trans (hbd e (by rw [he] at h2; exact h2) hk) hd)
        (by rw [he]; exact hsp)
    · have hmono : s.last_edit_time ≤ (process_chunk cap s d).last_edit_time := by
        rcases hl with h1 | h1
        · rw [h1]; exact hd
        · rw [h1]
      have hlle : (process_chunk cap s d).last_edit_time ≤ d.time := by
        rcases hl with h1 | h1
        · rw [h1]
        · rw [h1]; exact hd
      refine ih _ hpw2
        (fun d2 h2 => le_trans hlle (hrest d2 h2))
        (fun e h2 hk => ?_)
        ?_
      · rw [he] at h2
        rcases List.mem_append.mp h2 with hold | hnew
        · exact le_trans (hbd e hold hk) hmono
        · rw [List.mem_singleton.mp hnew] at hk
          exact absurd hk (by simp)
      · rw [he]
        rw [periodic_spaced, List.pairwise_append]
        refine ⟨hsp, ?_, ?_⟩
        · simp
        · intro a _ b hb _ hbk
          rw [List.mem_singleton.mp hb] at hbk
          exact absurd hbk (by simp)
    · refine ih _ hpw2
        (fun d2 h2 => by rw [hl]; exact hrest d2 h2)
        (fun e h2 hk => ?_)
        ?_
      · rw [he] at h2
        rw [hl]
        rcases List.mem_append.mp h2 with hold | hnew
        · exact le_trans (hbd e hold hk) hd
        · rw [List.mem_singleton.mp hnew]
      · rw [he]
        rw [periodic_spaced, List.pairwise_append]
        refine ⟨hsp, ?_, ?_⟩
        · simp
        · intro a ha b hb hak hbk
          rw [List.mem_singleton.mp hb]
          show a.time + 2 ≤ d.time
          have := hbd a ha hak
          omega

/-- Claim C7 (corrected): while the stream is active, any two recorded
    throttled periodic edits are at least 2 seconds apart, because a
    periodic edit fires only 2 seconds after the last timer reset and the
    timer never moves backward.  Exempt from the minimum interval are not
    only the final-flush edits, as the claim stated, but also the
    overflow finalize edits (line 672), which the source performs
    regardless of the timer; moreover, when an overflow finalize edit
    succeeds but its follow-up send fails, the timer stays stale, so even
    a periodic edit may follow that recorded overflow edit within 2
    seconds (second counterexample trace). -/
theorem c7_amended_thm (cap : Nat) (deltas : List Delta)
    (h : List.Pairwise (fun a b => a.time ≤ b.time) deltas) :
    periodic_spaced (run_stream cap deltas).edits := by
  unfold run_stream
  refine stream_edits_spaced_aux cap deltas init_driver h
    (fun d _ => Nat.zero_le d.time) (fun e he _ => ?_) ?_
  · exact absurd he (by simp [init_driver])
  · exact List.Pairwise.nil

/-- Chronologically timed deltas producing two spaced periodic edits. -/
def deltasC7w : List Delta :=
  [ ⟨"a", 0, false, false⟩, ⟨"b", 2, false, false⟩, ⟨"c", 5, false, false⟩ ]

/-- Witness for c7_amended_thm at a concrete run. -/
theorem c7_amended_witness : periodic_spaced (run_stream 5 deltasC7w).edits :=
  c7_amended_thm 5 deltasC7w (by decide)

/-! ## Claim C8: failure handling -/

/-- C8 counterexample deltas: the second chunk overflows the cap but its
    finalize edit fails; the third chunk arrives afterwards. -/
def deltasC8 : List Delta :=
  [ ⟨"a", 0, false, false⟩, ⟨"bbbbbb", 0, true, false⟩, ⟨"c", 0, false, false⟩ ]

/-- Claim C8 states that a failing edit aborts all further streaming and
    surfaces the fixed error message.  Counterexample: the edit failure at
    the second chunk is swallowed by the inner except (lines 707-709) and
    the stream continues: the third chunk is still processed and lands in
    the outgoing messages, and no message ever shows the error text. -/
theorem c8_counterexample :
    (run_driver 5 deltasC8 false).msgs = ["a", "bbbbbbc"]
    ∧ error_text ∉ (run_driver 5 deltasC8 false).msgs := by
  decide

/-- Alignment invariant of the stream loop when every overflow send
    succeeds: either no message was ever sent (only possible while the
    first send keeps failing), or the committed contents are non-empty
    and the outgoing messages are exactly the finalized committed
    contents followed by one active message.  (An overflow whose
    finalize edit succeeds but whose follow-up send fails breaks this
    alignment: the contents gain an entry with no message of its own.) -/
def msgs_aligned (s : DriverState) : Prop :=
  s.msgs = [] ∨ (s.contents ≠ [] ∧ ∃ act, s.msgs = s.contents.dropLast ++ [act])

theorem process_chunk_aligned (cap : Nat) (s : DriverState) (d : Delta)
    (hs : d.send_fails = false) (h : msgs_aligned s) :
    msgs_aligned (process_chunk cap s d) := by
  unfold process_chunk
  split
  · rename_i hl
    have hc : s.contents = [] := by simpa using hl
    have hm : s.msgs = [] := by
      rcases h with h0 | ⟨hne, _⟩
      · exact h0
      · exact absurd hc hne
    split
    · exact Or.inl hm
    · right
      refine ⟨by simp [msgs_aligned], s.buffer ++ d.text ++ marker, ?_⟩
      simp [hm]
  · rename_i last hl
    have hcne : s.contents ≠ [] := by
      intro hc
      rw [hc] at hl
      exact Option.noConfusion hl
    have hglast : s.contents.dropLast ++ [last] = s.contents := by
      obtain ⟨hne, heq⟩ := List.mem_getLast?_eq_getLast (Option.mem_def.mpr hl)
      rw [heq]
      exact List.dropLast_append_getLast hne
    split
    · split
      · exact h
      · split
        · rename_i hsf
          rw [hs] at hsf
          exact Bool.noConfusion hsf
        · rename_i hfm _
          have hmne : s.msgs ≠ [] := by
            intro h0
            rw [h0] at hfm
            simp at hfm
          rcases h with h0 | ⟨_, act, hact⟩
          · exact absurd h0 hmne
          · right
            refine ⟨by simp, s.buffer ++ d.text ++ marker, ?_⟩
            show s.msgs.dropLast ++ [last, s.buffer ++ d.text ++ marker]
              = (s.contents ++ [s.buffer ++ d.text]).dropLast
                ++ [s.buffer ++ d.text ++ marker]
            rw [List.dropLast_concat, hact, List.dropLast_concat]
            conv_rhs => rw [← hglast]
            rw [List.append_assoc]
            rfl
    · split
      · split
        · exact h
        · rename_i hfm
          rcases h with h0 | ⟨_, act, hact⟩
          · exact absurd h0 (by
              intro hc
              rw [hc] at hfm
              simp at hfm)
          · right
            refine ⟨hcne, last ++ (s.buffer ++ d.text) ++ marker, ?_⟩
            rw [hact, List.dropLast_concat]
      · exact h

theorem run_stream_aligned (cap : Nat) (deltas : List Delta)
    (hok : ∀ d ∈ deltas, d.send_fails = false) :
    msgs_aligned (run_stream cap deltas) := by
  unfold run_stream
  have haux : ∀ (ds : List Delta) (s : DriverState),
      (∀ d ∈ ds, d.send_fails = false) → msgs_aligned s →
      msgs_aligned (ds.foldl (process_chunk cap) s) := by
    intro ds
    induction ds with
    | nil => intro s _ h; exact h
    | cons d rest ih =>
      intro s hok2 h
      rw [List.foldl_cons]
      exact ih _ (fun d2 h2 => hok2 d2 (List.mem_cons_of_mem d h2))
        (process_chunk_aligned cap s d (hok2 d (List.mem_cons_self d rest)) h)
  exact haux deltas init_driver hok (Or.inl rfl)

/-- Each chunk keeps the message count at or below the content count:
    messages are only created together with a content entry, while a
    partially failed overflow creates a content entry without one. -/
theorem process_chunk_msgs_le (cap : Nat) (s : DriverState) (d : Delta)
    (h : s.msgs.length ≤ s.contents.length) :
    (process_chunk cap s d).msgs.length ≤ (process_chunk cap s d).contents.length := by
  unfold process_chunk
  split
  · rename_i hl
    have hc : s.contents = [] := by simpa using hl
    have hm0 : s.msgs.length = 0 := by
      rw [hc] at h
      simpa using h
    split
    · simp only [List.length_cons, List.length_nil]
      omega
    · simp only [List.length_append, List.length_cons, List.length_nil]
      omega
  · rename_i last hl
    have hcne : s.contents ≠ [] := by
      intro hc
      rw [hc] at hl
      exact Option.noConfusion hl
    have hcl : 0 < s.contents.length := List.length_pos.mpr hcne
    split
    · split
      · exact h
      · split
        · simp only [List.length_append, List.length_dropLast, List.length_cons,
            List.length_nil]
          omega
        · simp only [List.length_append, List.length_dropLast, List.length_cons,
            List.length_nil]
          omega
    · split
      · split
        · exact h
        · simp only [List.length_append, List.length_dropLast, List.length_cons,
            List.length_nil]
          omega
      · exact h

theorem run_stream_msgs_le (cap : Nat) (deltas : List Delta) :
    (run_stream cap deltas).msgs.length ≤ (run_stream cap deltas).contents.length := by
  unfold run_stream
  have haux : ∀ (ds : List Delta) (s : DriverState),
      s.msgs.length ≤ s.contents.length →
      (ds.foldl (process_chunk cap) s).msgs.length
        ≤ (ds.foldl (process_chunk cap) s).contents.length := by
    intro ds
    induction ds with
    | nil => intro s h; exact h
    | cons d rest ih =>
      intro s h
      rw [List.foldl_cons]
      exact ih _ (process_chunk_msgs_le cap s d h)
  exact haux deltas init_driver (by simp [init_driver])

/-- Claim C8 (corrected): only a failure of the stream iteration itself
    (or of the final flush) reaches the outer handler; the driver then
    overwrites only the active outgoing message with the fixed error text
    (creating one when none exists): every outgoing message except the
    last keeps its displayed content, the last shows the error text, and
    no further chunk is consumed.  When additionally every overflow send
    succeeded, the earlier messages display exactly their committed
    contents; after an overflow whose finalize edit succeeded but whose
    follow-up send failed, the entry opened by that overflow has no
    message of its own, so the error text lands on the finalized active
    message instead.  Edit failures inside the chunk loop are swallowed
    and streaming continues (see the counterexample). -/
theorem c8_amended_thm (cap : Nat) (deltas : List Delta) :
    ((run_stream cap deltas).msgs = [] →
      (run_driver cap deltas true).msgs = [error_text])
    ∧ (run_driver cap deltas true).msgs.dropLast = (run_stream cap deltas).msgs.dropLast
    ∧ (run_driver cap deltas true).msgs.getLast? = some error_text
    ∧ ((∀ d ∈ deltas, d.send_fails = false) → (run_stream cap deltas).msgs ≠ [] →
      (run_driver cap deltas true).msgs
        = (run_stream cap deltas).contents.dropLast ++ [error_text]) := by
  refine ⟨?_, ?_, ?_, ?_⟩
  · intro h
    show (error_update (run_stream cap deltas)).msgs = _
    unfold error_update
    rw [if_pos (by simp [h])]
  · show (error_update (run_stream cap deltas)).msgs.dropLast = _
    unfold error_update
    split
    · rename_i hm
      have hm2 : (run_stream cap deltas).msgs = [] := by simpa using hm
      rw [hm2]
      rfl
    · simp [List.dropLast_concat]
  · show (error_update (run_stream cap deltas)).msgs.getLast? = _
    unfold error_update
    split
    · rfl
    · exact List.getLast?_concat _
  · intro hok h
    rcases run_stream_aligned cap deltas hok with h0 | ⟨hne, act, hact⟩
    · exact absurd h0 h
    · show (error_update (run_stream cap deltas)).msgs = _
      unfold error_update
      rw [if_neg (by simp [h])]
      simp only [hact, List.dropLast_concat]

/-- Witness deltas for the C8 amended theorem: one successful chunk, then
    the stream iteration raises. -/
def deltasC8w : List Delta := [ ⟨"hi", 0, false, false⟩ ]

/-- Witness for c8_amended_thm at a concrete run: the single outgoing
    message is overwritten by the error text. -/
theorem c8_amended_witness :
    (run_driver 5 deltasC8w true).msgs
      = (run_stream 5 deltasC8w).contents.dropLast ++ [error_text] :=
  (c8_amended_thm 5 deltasC8w).2.2.2 (by decide) (by decide)

/-! ## Claim C10: registration of response messages in the cache -/

theorem final_update_msgs_eq (s : DriverState)
    (h : s.msgs.length ≤ s.contents.length) :
    (final_update s).msgs = (final_update s).contents := by
  unfold final_update
  rcases hl : s.contents.getLast? with _ | last
  · have hc : s.contents = [] := by simpa using hl
    have hm : s.msgs = [] := by
      rw [hc] at h
      exact List.eq_nil_of_length_eq_zero (Nat.le_zero.mp (by simpa using h))
    simp [hc, hm]
  · have hdrop : s.msgs.drop s.contents.length = [] := List.drop_eq_nil_of_le h
    simp only [hdrop]
    simp

/-- Claim C10 (confirmed): after the handler finishes, every outgoing
    response message is registered as a node with role model and the
    trigger message as parent, and its text is the join of all committed
    contents; when the stream completed, that join equals the
    concatenation of the final contents of all outgoing messages, i.e. the
    full response rather than any single segment. -/
theorem c10_response_nodes (cap : Nat) (deltas : List Delta) (trigger : Nat) :
    (∀ n ∈ response_nodes trigger (run_driver cap deltas false),
        n.role = Role.model ∧ n.parent_msg = some trigger
          ∧ n.text = String.join (run_driver cap deltas false).contents)
    ∧ String.join (run_driver cap deltas false).msgs
        = String.join (run_driver cap deltas false).contents
    ∧ (∀ n ∈ response_nodes trigger (run_driver cap deltas true),
        n.role = Role.model ∧ n.parent_msg = some trigger
          ∧ n.text = String.join (run_driver cap deltas true).contents) := by
  refine ⟨?_, ?_, ?_⟩
  · intro n hn
    rcases List.mem_map.mp hn with ⟨x, _, rfl⟩
    exact ⟨rfl, rfl, rfl⟩
  · have h := final_update_msgs_eq (run_stream cap deltas) (run_stream_msgs_le cap deltas)
    show String.join (final_update (run_stream cap deltas)).msgs
      = String.join (final_update (run_stream cap deltas)).contents
    rw [h]
  · intro n hn
    rcases List.mem_map.mp hn with ⟨x, _, rfl⟩
    exact ⟨rfl, rfl, rfl⟩

/-- The single response node of the C10 witness run. -/
def nodeC10 : RespNode :=
  { role := Role.model, parent_msg := some 99, text := "hi" }

/-- Witness for c10_response_nodes at a concrete run. -/
theorem c10_witness :
    nodeC10.role = Role.model ∧ nodeC10.parent_msg = some 99
      ∧ nodeC10.text = String.join (run_driver 5 deltasC8w false).contents :=
  (c10_response_nodes 5 deltasC8w 99).1 nodeC10 (by decide)

/-! ## System prompt composer (bot.py lines 238-261) -/

/-- A stored user record ({display_name, description, ...}); the
    timestamps are irrelevant to the composer. -/
structure UserRec where
  display_name : String
  description : String
deriving DecidableEq

/-- The server data consumed by build_system_prompt: the guild mapping
    "users" (null in DM files; the empty dict is falsy), and the DM record
    "user" (absent in guild files; none also covers the falsy empty
    dict). -/
structure ServerData where
  users : Option (List (Nat × UserRec))
  user : Option UserRec
deriving DecidableEq

/-- Python truthiness of server_data.get("users") (bot.py line 250). -/
def users_truthy (sd : ServerData) : Bool :=
  match sd.users with
  | some l => !l.isEmpty
  | none => false

/-- Dictionary lookup user_id_str in server_data["users"]. -/
def lookup_user (l : List (Nat × UserRec)) (uid : Nat) : Option UserRec :=
  (l.find? (fun p => p.1 == uid)).map Prod.snd

/-- The UnboundLocalError raised when the loop-local variable user is read
    before any assignment (bot.py line 254). -/
inductive PyErr where
  | nameError
deriving DecidableEq

/-- bot.py line 253: the known-users line of a guild participant. -/
def guild_line (uid : Nat) (u : UserRec) : String :=
  "- <@" ++ toString uid ++ "> (Display: " ++ u.display_name ++ "): " ++ u.description

/-- bot.py line 255: the DM line.  Note that the source reads the stale
    loop variable user here, not the DM record. -/
def dm_line (u : UserRec) : String :=
  "- " ++ u.display_name ++ ": " ++ u.description

/-- The elif branch of the loop body (bot.py line 254): when the DM record
    is truthy, Python evaluates user.get("description") on the loop-local
    variable user, which raises UnboundLocalError while that variable is
    still unbound. -/
def users_info_dm_step (sd : ServerData) (userVar : Option UserRec)
    (acc : List String) : Except PyErr (Option UserRec × List String) :=
  match sd.user with
  | some _ =>
    match userVar with
    | none => Except.error PyErr.nameError
    | some u =>
      Except.ok (userVar, if u.description.isEmpty then acc else acc ++ [dm_line u])
  | none => Except.ok (userVar, acc)

/-- One iteration of the known-users loop (bot.py lines 248-255): the
    guild branch runs when the users dict is truthy and contains the
    participant (binding the loop variable), otherwise the elif branch. -/
def users_info_step (sd : ServerData) (uid : Nat) (userVar : Option UserRec)
    (acc : List String) : Except PyErr (Option UserRec × List String) :=
  match sd.users with
  | some l =>
    if l.isEmpty then users_info_dm_step sd userVar acc
    else
      match lookup_user l uid with
      | some u =>
        Except.ok (some u,
          if u.description.isEmpty then acc else acc ++ [guild_line uid u])
      | none => users_info_dm_step sd userVar acc
  | none => users_info_dm_step sd userVar acc

/-- The known-users loop (bot.py lines 247-255). -/
def users_info (sd : ServerData) :
    List Nat → Option UserRec → List String → Except PyErr (List String)
  | [], _, acc => Except.ok acc
  | uid :: rest, userVar, acc =>
    match users_info_step sd uid userVar acc with
    | Except.error e => Except.error e
    | Except.ok (uv2, acc2) => users_info sd rest uv2 acc2

/-- build_system_prompt (bot.py lines 238-261): substitute the date and
    time tokens (the clock reading is passed as the two strings), strip,
    append the server name when present, then append the known-users
    block; the participant loop can raise (see users_info_dm_step). -/
def build_system_prompt (base_prompt : String) (sd : ServerData)
    (server_name : Option String) (uids : List Nat)
    (dateStr timeStr : String) : Except PyErr String :=
  let p := ((base_prompt.replace ("{date}") dateStr).replace ("{time}") timeStr).trim
  let p := match server_name with
    | some n => p ++ "\n\nCurrent server: " ++ n
    | none => p
  match users_info sd uids none [] with
  | Except.error e => Except.error e
  | Except.ok info =>
    if info.isEmpty then Except.ok p
    else Except.ok (p ++ "\n\nKnown users in this conversation:\n"
      ++ String.intercalate "\n" info
      ++ "\n\nWhen addressing users, use their display names naturally in conversation.")

/-- The DM server data of the C9 failing input: users is null and the
    stored user record is non-empty, as every DM file has after first
    contact. -/
def sdC9 : ServerData :=
  { users := none
    user := some { display_name := "Alice", description := "likes cats" } }

/-- Claim C9 (code bug): on a direct-message input with a stored user
    record and a non-empty participant set, build_system_prompt raises
    UnboundLocalError instead of returning a prompt: line 254 reads the
    loop variable user before any assignment, and the guild branch that
    would bind it is unreachable on DM data (users is null there).  The
    composer the claim calls a pure total function crashes on every such
    input. -/
theorem c9_dm_crash :
    build_system_prompt ("You are a bot.") sdC9 none [42]
        ("June 01 2025") ("12:00:00 UTC")
      = Except.error PyErr.nameError := by
  rfl

end Geminicord
